import Mathlib

/-!
Verification of the gf HTTP per-request dispatch pipeline.

Shallow embedding of `src/net/ghttp/ghttp_server_x.go`: the functions
`CServeHTTP`, `handleHTTPRequest`, `HandleContext`, `middleware.reset`, and
the deferred error/panic handling block, together with the error-log
classification from the `cHandleErrorLog` variant.

External collaborator code (hooks, route handlers, static-file serving,
session storage, status-handler resolution) is modelled as arbitrary state
transformers supplied through an environment `Env`, exactly where the Go
code calls out to them.  The dispatcher's own control flow is translated
line by line; every branch condition mirrors the corresponding Go condition.

The pipeline produces, besides the final request state, a trace of
observable events (hook invocations with the `exited` flag at call time,
which serve branch ran, status-handler invocations, the session-cookie
write, and the response flush with the status being flushed), so that the
claims about invocation gating and ordering are statable.
-/

namespace GfDispatch

/-- Hook stage names, from the `HookBeforeServe` / `HookAfterServe` /
`HookBeforeOutput` / `HookAfterOutput` constants used in
`ghttp_server_x.go`. -/
inductive HookName where
  | beforeServe
  | afterServe
  | beforeOutput
  | afterOutput
deriving DecidableEq, Repr

/-- The `gcode.Code` type: an error code with an integer value and a message.
`gcode.CodeNil` has value `-1`, `gcode.CodeInternalError` has value `50`. -/
structure GCode where
  code : Int
  message : String
deriving DecidableEq, Repr

/-- The sentinel `gcode.CodeNil` compared against in the panic
recovery block (`if code := gerror.Code(v); code != gcode.CodeNil`). -/
def CodeNil : GCode := ⟨-1, ""⟩

/-- The code `gcode.CodeInternalError`, used to wrap uncoded panics. -/
def CodeInternalError : GCode := ⟨50, "Internal Error"⟩

/-- A Go `error` value as the dispatcher observes it: `gerror.Code(err)`
returns the carried code, which is `CodeNil` for errors constructed without
a code. -/
structure GError where
  code : GCode
  text : String
deriving DecidableEq, Repr

/-- A recovered panic value: either a value implementing `error`
(`exception.(error)` succeeds) or any other value, kept as its formatted
payload. -/
inductive PanicValue where
  | errPanic : GError → PanicValue
  | rawPanic : String → PanicValue
deriving DecidableEq, Repr

/-- The match returned by `s.searchStaticFile`: only its presence and the
`IsDir` flag matter to the dispatcher. -/
structure StaticFile where
  isDir : Bool
deriving DecidableEq, Repr

/-- The `middleware` cursor state: `handlerIndex`, `handlerMDIndex` and the
`served` marker (`ghttp_server_x.go`, `reset`). -/
structure MWState where
  handlerIndex : Nat
  handlerMDIndex : Nat
  served : Bool
deriving DecidableEq, Repr

/-- Modelled from the spec: the response buffer and status register of
`Response` (its implementation is not under `src/`).  Per the spec,
`WriteHeader` records the status, `Write` appends to the in-memory buffer,
`BufferLength`/`buffer.Len()` is the buffered byte count, and `Header()`
is the outbound header map (only its emptiness is tested here). -/
structure ResponseState where
  status : Nat
  buffer : String
  headerCount : Nat
deriving DecidableEq, Repr

/-- The per-request mutable state (`Request`) as read and written by the
dispatcher: exit flag, recorded error, static-file match, file-request
flag, resolved handler information, response, middleware cursor, session
observations (`Session.IsDirty()`, `Session.MustId()`,
`GetSessionId()`), and the session id written to the outbound cookie by
`Cookie.SetSessionId`. -/
structure ReqState where
  exited : Bool
  error : Option GError
  staticFile : Option StaticFile
  isFileRequest : Bool
  handlersCount : Nat
  hasServeHandler : Bool
  hasHookHandler : Bool
  response : ResponseState
  middleware : MWState
  sessionDirty : Bool
  sessionId : String
  inboundSessionId : String
  cookieSessionId : Option String
deriving DecidableEq, Repr

/-- Observable events emitted by the dispatcher.  `hookCall h b` records a
hook-stage invocation together with the value of the `exited` flag at the
moment of the call; `statusHandlerCall i` records the invocation of the
`i`-th registered status-fallback handler; `responseFlush n` records
`Response.Flush` with the status being flushed. -/
inductive Event where
  | hookCall : HookName → Bool → Event
  | serveStatic : Event
  | serveDynamic : Event
  | serveDirectory : Event
  | statusHandlerCall : Nat → Event
  | cookieSessionWrite : String → Event
  | cookieFlush : Event
  | responseFlush : Nat → Event
deriving DecidableEq, Repr

/-- A status-fallback handler as run inside `niceCallFunc`: it transforms
the request state and additionally reports whether it panicked; the
protective wrapper discards the panic, so only the state survives. -/
def StatusHandler : Type := ReqState → ReqState × Bool

/-- The external collaborators and configuration the dispatcher consumes:
registered hooks (`callHookHandler`), `serveFile`, `Middleware.Next`
(which runs the dynamic handler chain and may mutate any request state),
`getStatusHandler`, `searchStaticFile`, the `getHandlersWithCache` result,
and the `FileServerEnabled` / `SessionCookieOutput` configuration. -/
structure Env where
  hook : HookName → ReqState → ReqState
  serveFile : ReqState → ReqState
  middlewareNext : ReqState → ReqState
  statusHandlers : Nat → List StatusHandler
  searchStaticFile : Option StaticFile
  handlersCount : Nat
  hasServeHandler : Bool
  hasHookHandler : Bool
  fileServerEnabled : Bool
  sessionCookieOutput : Bool

/-- Modelled from the spec: `Response.WriteHeader(status)` records the
status for the later flush (the `Response` implementation is not under
`src/`). -/
def writeHeader (st : ReqState) (n : Nat) : ReqState :=
  { st with response := { st.response with status := n } }

/-- Modelled from the spec: `Response.Write` appends to the response
buffer. -/
def respWrite (st : ReqState) (s : String) : ReqState :=
  { st with response := { st.response with buffer := st.response.buffer ++ s } }

/-- The fresh request state built by `newRequest` at the top of `CServeHTTP`,
before any handler has run.  `sid` is the inbound session id; the session
has not been touched, no error is recorded, nothing has been written. -/
def newRequest (sid : String) : ReqState :=
  { exited := false
    error := none
    staticFile := none
    isFileRequest := false
    handlersCount := 0
    hasServeHandler := false
    hasHookHandler := false
    response := { status := 0, buffer := "", headerCount := 0 }
    middleware := { handlerIndex := 0, handlerMDIndex := 0, served := false }
    sessionDirty := false
    sessionId := sid
    inboundSessionId := sid
    cookieSessionId := none }

/-- Model of `s.callHookHandler(h, request)`: run the registered hooks for stage `h`
(arbitrary external code acting on the request), recording the invocation
and the `exited` flag at call time. -/
def callHook (env : Env) (h : HookName) (st : ReqState) : ReqState × List Event :=
  (env.hook h st, [Event.hookCall h st.exited])

/-- The gated hook-stage pattern `if !request.IsExited() {
s.callHookHandler(h, request) }` used for AfterServe, BeforeOutput and
AfterOutput. -/
def callHookIfNotExited (env : Env) (h : HookName) (st : ReqState) : ReqState × List Event :=
  if st.exited then (st, []) else callHook env h st

/-- Lines 161-166 of `ghttp_server_x.go`: when `FileServerEnabled`, assign
`request.StaticFile = s.searchStaticFile(...)` and, if a match was found,
set `isFileRequest = true`. -/
def resolveStatic (env : Env) (st : ReqState) : ReqState :=
  if env.fileServerEnabled then
    match env.searchStaticFile with
    | some sf => { st with staticFile := some sf, isFileRequest := true }
    | none => { st with staticFile := none }
  else st

/-- Line 169: assign the `getHandlersWithCache` results onto the request. -/
def resolveHandlers (env : Env) (st : ReqState) : ReqState :=
  { st with
      handlersCount := env.handlersCount
      hasServeHandler := env.hasServeHandler
      hasHookHandler := env.hasHookHandler }

/-- Whether `request.StaticFile != nil && request.StaticFile.IsDir`, as a Bool. -/
def staticIsDir (st : ReqState) : Bool :=
  match st.staticFile with
  | some sf => sf.isDir
  | none => false

/-- Lines 172-174: if the static match is a directory and a dynamic serve
handler exists, the request is not a file request after all. -/
def adjustFileRequest (st : ReqState) : ReqState :=
  if staticIsDir st && st.hasServeHandler then { st with isFileRequest := false }
  else st

/-- Lines 180-201, the core serve decision, gated by `!request.IsExited()`:
static file service, dynamic service via `Middleware.Next()`, directory
service, or the default 404 when nothing has been written yet. -/
def coreServe (env : Env) (st : ReqState) : ReqState × List Event :=
  if st.exited then (st, [])
  else if st.isFileRequest then (env.serveFile st, [Event.serveStatic])
  else if st.handlersCount > 0 then (env.middlewareNext st, [Event.serveDynamic])
  else if staticIsDir st then (env.serveFile st, [Event.serveDirectory])
  else if st.response.headerCount = 0 ∧ st.response.status = 0 ∧
      st.response.buffer.length = 0 then
    (writeHeader st 404, [])
  else (st, [])

/-- The function `handleHTTPRequest` (lines 153-212): static/dynamic resolution, the
BeforeServe hook (not gated on `exited`), the core serve decision, then
the AfterServe and BeforeOutput hooks, each gated on `exited`. -/
def handleHTTPRequest (env : Env) (st : ReqState) : ReqState × List Event :=
  let s0 := adjustFileRequest (resolveHandlers env (resolveStatic env st))
  let p1 := callHook env HookName.beforeServe s0
  let p2 := coreServe env p1.1
  let p3 := callHookIfNotExited env HookName.afterServe p2.1
  let p4 := callHookIfNotExited env HookName.beforeOutput p3.1
  (p4.1, p1.2 ++ p2.2 ++ p3.2 ++ p4.2)

/-- Lines 108-120, the HTTP status checking block: when no status was set,
default to 200 if a static match exists, the chain marked `served`, or the
buffer is non-empty; else, when an error is recorded, write its text into
the still-empty body and set 500; else set 404. -/
def statusCheck (st : ReqState) : ReqState :=
  if st.response.status = 0 then
    if st.staticFile.isSome || st.middleware.served || decide (st.response.buffer.length > 0) then
      writeHeader st 200
    else
      match st.error with
      | some e =>
        let st1 := if st.response.buffer.length = 0 then respWrite st e.text else st
        writeHeader st1 500
      | none => writeHeader st 404
  else st

/-- The status-handler loop body (lines 124-132): call each handler inside
`niceCallFunc` (the panic flag is discarded), and break as soon as
`request.IsExited()` holds after a call.  `i` is the registration index of
the first handler of `fs`. -/
def runStatusHandlers (fs : List StatusHandler) (i : Nat) (st : ReqState) :
    ReqState × List Event :=
  match fs with
  | [] => (st, [])
  | f :: rest =>
    let st1 := (f st).1
    if st1.exited then (st1, [Event.statusHandlerCall i])
    else
      let p := runStatusHandlers rest (i + 1) st1
      (p.1, Event.statusHandlerCall i :: p.2)

/-- Lines 122-133: when the status differs from 200, fetch the fallback
handlers registered for it and run the loop. -/
def statusHandlerStage (env : Env) (st : ReqState) : ReqState × List Event :=
  if st.response.status ≠ 200 then runStatusHandlers (env.statusHandlers st.response.status) 0 st
  else (st, [])

/-- Lines 138-142: write the session id to the outbound cookie exactly when
`SessionCookieOutput` is enabled, the session is dirty, and
`Session.MustId()` differs from the inbound `GetSessionId()`. -/
def sessionCookieStep (cookieOutput : Bool) (st : ReqState) : ReqState × List Event :=
  if cookieOutput && st.sessionDirty && st.sessionId != st.inboundSessionId then
    ({ st with cookieSessionId := some st.sessionId },
      [Event.cookieSessionWrite st.sessionId])
  else (st, [])

/-- The body of `CServeHTTP` after `newRequest` (lines 106-151), deferred block aside:
`handleHTTPRequest`, status checking, the status-handler loop, the session
cookie write, `Cookie.Flush` and `Response.Flush`, then the AfterOutput
hook gated on `exited`. -/
def cServeHTTP (env : Env) (st : ReqState) : ReqState × List Event :=
  let p1 := handleHTTPRequest env st
  let st2 := statusCheck p1.1
  let p3 := statusHandlerStage env st2
  let p4 := sessionCookieStep env.sessionCookieOutput p3.1
  let flushTr := [Event.cookieFlush, Event.responseFlush p4.1.response.status]
  let p5 := callHookIfNotExited env HookName.afterOutput p4.1
  (p5.1, p1.2 ++ p3.2 ++ p4.2 ++ flushTr ++ p5.2)

/-- The request state right after `handleHTTPRequest` returns inside
`CServeHTTP`, i.e. the state the status-checking block examines. -/
def stateAfterServe (env : Env) (st : ReqState) : ReqState :=
  (handleHTTPRequest env st).1

/-- The request state right after the status-checking block. -/
def stateAfterCheck (env : Env) (st : ReqState) : ReqState :=
  statusCheck (stateAfterServe env st)

/-- The request state right before the session-cookie step (after the
status-handler loop). -/
def stateBeforeCookie (env : Env) (st : ReqState) : ReqState :=
  (statusHandlerStage env (stateAfterCheck env st)).1

/-- The method `middleware.reset` (lines 233-237): clear `served` and both cursor
indices. -/
def middlewareReset (_m : MWState) : MWState :=
  { served := false, handlerIndex := 0, handlerMDIndex := 0 }

/-- The method `HandleContext` (lines 215-226): save the two cursor indices, reset the
middleware state, replay `handleHTTPRequest`, then restore the two saved
indices (and only them). -/
def handleContext (env : Env) (st : ReqState) : ReqState × List Event :=
  let oldHandlerIndex := st.middleware.handlerIndex
  let oldHandlerMDIndx := st.middleware.handlerMDIndex
  let st1 := { st with middleware := middlewareReset st.middleware }
  let p := handleHTTPRequest env st1
  ({ p.1 with
      middleware :=
        { p.1.middleware with
            handlerIndex := oldHandlerIndex
            handlerMDIndex := oldHandlerMDIndx } },
    p.2)

/-- What the deferred block logs and writes: the error handed to the
error-log path (with its code), if any, and the status passed to
`Response.WriteStatus`, if that call was made. -/
structure DeferredOutcome where
  loggedError : Option GError
  statusWriteCall : Option Nat
deriving DecidableEq, Repr

/-- The deferred error handling of `CServeHTTP` (lines 65-83), with the
`cHandleErrorLog` early return when error logging is disabled: when an
error is already recorded on the request, log it as-is; otherwise, when a
panic was recovered, call `WriteStatus(500)` and log the panic value -
as-is when it is an error with a code other than `CodeNil`, wrapped with
`CodeInternalError` when it is an error with `CodeNil`, and as a fresh
`CodeInternalError` error formatting the payload otherwise. -/
def deferredErrorHandling (errorLogEnabled : Bool) (errField : Option GError)
    (exc : Option PanicValue) : DeferredOutcome :=
  match errField with
  | some e =>
    { loggedError := if errorLogEnabled then some e else none
      statusWriteCall := none }
  | none =>
    match exc with
    | none => { loggedError := none, statusWriteCall := none }
    | some v =>
      let logged : GError :=
        match v with
        | PanicValue.errPanic e =>
          if e.code ≠ CodeNil then e else { code := CodeInternalError, text := e.text }
        | PanicValue.rawPanic s => { code := CodeInternalError, text := s }
      { loggedError := if errorLogEnabled then some logged else none
        statusWriteCall := some 500 }


/-- A default environment: no static files, no handlers, no hooks, no
status handlers, cookie output disabled.  External calls are the
identity. -/
def baseEnv : Env :=
  { hook := fun _ st => st
    serveFile := fun st => st
    middlewareNext := fun st => st
    statusHandlers := fun _ => []
    searchStaticFile := none
    handlersCount := 0
    hasServeHandler := false
    hasHookHandler := false
    fileServerEnabled := false
    sessionCookieOutput := false }

/-- Checker for the hook-gating property: every hook invocation recorded in
the trace happened while the `exited` flag was `false`. -/
def hookGateOk (tr : List Event) : Bool :=
  tr.all fun e =>
    match e with
    | Event.hookCall _ b => !b
    | _ => true

/-- Whether an event is the session-cookie write. -/
def isCookieWrite (e : Event) : Bool :=
  match e with
  | Event.cookieSessionWrite _ => true
  | _ => false

/-- The request state after the first `n` status-fallback handlers have
run (inside the protective wrapper, which keeps the state and discards
the panic flag). -/
def applyTake (fs : List StatusHandler) (n : Nat) (st : ReqState) : ReqState :=
  (fs.take n).foldl (fun s f => (f s).1) st

lemma hookGateOk_append (t1 t2 : List Event) :
    hookGateOk (t1 ++ t2) = (hookGateOk t1 && hookGateOk t2) :=
  List.all_append

lemma resolveStatic_exited (env : Env) (st : ReqState) :
    (resolveStatic env st).exited = st.exited := by
  unfold resolveStatic
  split
  · split <;> rfl
  · rfl

lemma resolveHandlers_exited (env : Env) (st : ReqState) :
    (resolveHandlers env st).exited = st.exited := rfl

lemma adjustFileRequest_exited (st : ReqState) :
    (adjustFileRequest st).exited = st.exited := by
  unfold adjustFileRequest
  split <;> rfl

lemma hookGateOk_callHook (env : Env) (h : HookName) (st : ReqState) :
    hookGateOk (callHook env h st).2 = !st.exited := by
  simp [callHook, hookGateOk]

lemma hookGateOk_callHookIfNotExited (env : Env) (h : HookName) (st : ReqState) :
    hookGateOk (callHookIfNotExited env h st).2 = true := by
  unfold callHookIfNotExited
  split
  · rfl
  · next hne =>
    simp only [hookGateOk_callHook]
    simp only [Bool.not_eq_true] at hne
    simp [hne]

lemma hookGateOk_coreServe (env : Env) (st : ReqState) :
    hookGateOk (coreServe env st).2 = true := by
  unfold coreServe
  split
  · rfl
  · split
    · rfl
    · split
      · rfl
      · split
        · rfl
        · split <;> rfl

lemma hookGateOk_runStatusHandlers (fs : List StatusHandler) (i : Nat) (st : ReqState) :
    hookGateOk (runStatusHandlers fs i st).2 = true := by
  induction fs generalizing i st with
  | nil => rfl
  | cons f rest ih =>
    unfold runStatusHandlers
    dsimp only
    split
    · rfl
    · simp only [hookGateOk, List.all_cons]
      exact ih (i + 1) _

lemma hookGateOk_statusHandlerStage (env : Env) (st : ReqState) :
    hookGateOk (statusHandlerStage env st).2 = true := by
  unfold statusHandlerStage
  split
  · exact hookGateOk_runStatusHandlers _ _ _
  · rfl

lemma hookGateOk_sessionCookieStep (b : Bool) (st : ReqState) :
    hookGateOk (sessionCookieStep b st).2 = true := by
  unfold sessionCookieStep
  split <;> rfl

lemma hookGateOk_handleHTTPRequest (env : Env) (st : ReqState)
    (h : st.exited = false) :
    hookGateOk (handleHTTPRequest env st).2 = true := by
  unfold handleHTTPRequest
  simp only [hookGateOk_append, Bool.and_eq_true]
  refine ⟨⟨⟨?_, ?_⟩, ?_⟩, ?_⟩
  · rw [hookGateOk_callHook, adjustFileRequest_exited, resolveHandlers_exited,
      resolveStatic_exited, h]
    rfl
  · exact hookGateOk_coreServe _ _
  · exact hookGateOk_callHookIfNotExited _ _ _
  · exact hookGateOk_callHookIfNotExited _ _ _

lemma sessionCookieStep_response (b : Bool) (st : ReqState) :
    ((sessionCookieStep b st).1).response = st.response := by
  unfold sessionCookieStep
  split <;> rfl

lemma statusHandlerStage_of_200 (env : Env) (st : ReqState)
    (h : st.response.status = 200) : statusHandlerStage env st = (st, []) := by
  unfold statusHandlerStage
  rw [if_neg]
  simp [h]

/-- The request state at the moment of `Response.Flush` (after the
session-cookie step). -/
def stateAtFlush (env : Env) (st : ReqState) : ReqState :=
  (sessionCookieStep env.sessionCookieOutput (stateBeforeCookie env st)).1

lemma responseFlush_mem (env : Env) (st : ReqState) :
    Event.responseFlush (stateAtFlush env st).response.status ∈ (cServeHTTP env st).2 := by
  simp [cServeHTTP, stateAtFlush, stateBeforeCookie, stateAfterCheck, stateAfterServe,
    List.mem_append]

/-- C1.  For every request entering the dispatcher with the `exited` flag
not yet set (as `newRequest` builds it), every hook-stage invocation
(BeforeServe, AfterServe, BeforeOutput, AfterOutput) recorded in the
trace of `CServeHTTP` happens while `exited` is still `false`; once a
handler or hook marks the request exited, the remaining hook stages emit
no invocation at all. -/
theorem hookStagesGatedByExited (env : Env) (st : ReqState)
    (h : st.exited = false) :
    hookGateOk (cServeHTTP env st).2 = true := by
  simp only [cServeHTTP, hookGateOk_append, Bool.and_eq_true]
  refine ⟨⟨⟨⟨hookGateOk_handleHTTPRequest env st h, ?_⟩, ?_⟩, ?_⟩, ?_⟩
  · exact hookGateOk_statusHandlerStage _ _
  · exact hookGateOk_sessionCookieStep _ _
  · rfl
  · exact hookGateOk_callHookIfNotExited _ _ _

/-- An environment whose BeforeServe hook marks the request exited. -/
def exitingHookEnv : Env :=
  { baseEnv with
      hook := fun h s =>
        if h = HookName.beforeServe then { s with exited := true } else s }

/-- Witness for C1 at a concrete input: a fresh request under an
environment whose BeforeServe hook exits the request. -/
theorem hookStagesGatedByExited_witness :
    (newRequest "sid").exited = false ∧
    hookGateOk (cServeHTTP exitingHookEnv (newRequest "sid")).2 = true :=
  ⟨rfl, hookStagesGatedByExited exitingHookEnv (newRequest "sid") rfl⟩

/-- C3.  `HandleContext` restores the middleware cursor: whatever state the
two cursor indices held before the call, they hold again after it, no
matter how far the internal replay advanced them. -/
theorem handleContext_restores_cursor (env : Env) (st : ReqState) :
    (handleContext env st).1.middleware.handlerIndex = st.middleware.handlerIndex ∧
    (handleContext env st).1.middleware.handlerMDIndex = st.middleware.handlerMDIndex :=
  ⟨rfl, rfl⟩

/-- C10.  `HandleContext` does not restore the `served` flag: the flag
after the call is exactly the one produced by replaying
`handleHTTPRequest` from the reset middleware state, and there are
requests for which the flag was `true` before the call and `false` after
it (even though the cursor indices are restored). -/
theorem handleContext_served_not_restored :
    (∀ (env : Env) (st : ReqState),
      (handleContext env st).1.middleware.served =
        (handleHTTPRequest env
          { st with middleware := middlewareReset st.middleware }).1.middleware.served) ∧
    (∃ (env : Env) (st : ReqState),
      st.middleware.served = true ∧
      (handleContext env st).1.middleware.served = false ∧
      (handleContext env st).1.middleware.handlerIndex = st.middleware.handlerIndex) := by
  refine ⟨fun env st => rfl, ⟨baseEnv,
    { newRequest "s" with
        middleware := { handlerIndex := 3, handlerMDIndex := 1, served := true } },
    rfl, by decide, by decide⟩⟩

/-- C8.  Whenever the serving phase ends with no explicit status but with
bytes in the response buffer or the middleware chain marked `served`, the
status-checking block defaults the status to 200, and 200 is the status
handed to `Response.Flush`. -/
theorem default200WhenOutput (env : Env) (st : ReqState)
    (h0 : (stateAfterServe env st).response.status = 0)
    (h1 : 0 < (stateAfterServe env st).response.buffer.length ∨
      (stateAfterServe env st).middleware.served = true) :
    (stateAfterCheck env st).response.status = 200 ∧
    Event.responseFlush 200 ∈ (cServeHTTP env st).2 := by
  have hcond : ((stateAfterServe env st).staticFile.isSome ||
      (stateAfterServe env st).middleware.served ||
      decide ((stateAfterServe env st).response.buffer.length > 0)) = true := by
    rcases h1 with h | h
    · simp [h]
    · simp [h]
  have hstep : stateAfterCheck env st = writeHeader (stateAfterServe env st) 200 := by
    unfold stateAfterCheck statusCheck
    rw [if_pos h0, if_pos hcond]
  have h200 : (stateAfterCheck env st).response.status = 200 := by
    rw [hstep]; rfl
  refine ⟨h200, ?_⟩
  have hflush : (stateAtFlush env st).response.status = 200 := by
    unfold stateAtFlush
    rw [sessionCookieStep_response]
    unfold stateBeforeCookie
    rw [statusHandlerStage_of_200 _ _ h200]
    exact h200
  have := responseFlush_mem env st
  rwa [hflush] at this

/-- An environment with a single dynamic handler that writes nothing:
`Middleware.Next` runs the chain but leaves the request untouched. -/
def idleHandlerEnv : Env := { baseEnv with handlersCount := 1 }

/-- Witness for C8: a handler chain whose only effect is to mark the chain
served. -/
def servedMarkEnv : Env :=
  { baseEnv with
      handlersCount := 1
      middlewareNext := fun s =>
        { s with middleware := { s.middleware with served := true } } }

/-- Witness for C8 at a concrete input. -/
theorem default200WhenOutput_witness :
    (stateAfterServe servedMarkEnv (newRequest "w8")).response.status = 0 ∧
    ((stateAfterCheck servedMarkEnv (newRequest "w8")).response.status = 200 ∧
      Event.responseFlush 200 ∈ (cServeHTTP servedMarkEnv (newRequest "w8")).2) :=
  ⟨by decide, default200WhenOutput servedMarkEnv (newRequest "w8") (by decide)
    (Or.inr (by decide))⟩

/-- C9.  When the serving phase ends with no status, an empty buffer, the
chain not served, no static match, and a recorded error, the
status-checking block writes the error text into the still-empty body and
sets status 500. -/
theorem errorText500 (env : Env) (st : ReqState) (e : GError)
    (h0 : (stateAfterServe env st).response.status = 0)
    (hsf : (stateAfterServe env st).staticFile = none)
    (hsv : (stateAfterServe env st).middleware.served = false)
    (hb : (stateAfterServe env st).response.buffer = "")
    (he : (stateAfterServe env st).error = some e) :
    (stateAfterCheck env st).response.status = 500 ∧
    (stateAfterCheck env st).response.buffer = e.text := by
  have hcond : ((stateAfterServe env st).staticFile.isSome ||
      (stateAfterServe env st).middleware.served ||
      decide ((stateAfterServe env st).response.buffer.length > 0)) = false := by
    simp [hsf, hsv, hb]
  have hstep : stateAfterCheck env st =
      writeHeader (respWrite (stateAfterServe env st) e.text) 500 := by
    unfold stateAfterCheck statusCheck
    rw [if_pos h0, if_neg (by simp [hcond]), he]
    dsimp only
    rw [if_pos (by simp [hb])]
  constructor
  · rw [hstep]; rfl
  · rw [hstep]
    show (stateAfterServe env st).response.buffer ++ e.text = e.text
    rw [hb, String.empty_append]

/-- C6.  For a recovered panic with no explicit error already attached to
the request (and error logging enabled): a panic carrying an error with a
code other than `CodeNil` is logged under that same code; a panic
carrying an error with `CodeNil` is wrapped and logged under
`CodeInternalError`; a panic carrying a non-error value is logged as a
formatted `CodeInternalError`; and in all three cases
`Response.WriteStatus(500)` is called. -/
theorem panicClassification (c : GCode) (t s : String) :
    (c ≠ CodeNil →
      deferredErrorHandling true none (some (PanicValue.errPanic ⟨c, t⟩)) =
        { loggedError := some ⟨c, t⟩, statusWriteCall := some 500 }) ∧
    deferredErrorHandling true none (some (PanicValue.errPanic ⟨CodeNil, t⟩)) =
      { loggedError := some ⟨CodeInternalError, t⟩, statusWriteCall := some 500 } ∧
    deferredErrorHandling true none (some (PanicValue.rawPanic s)) =
      { loggedError := some ⟨CodeInternalError, s⟩, statusWriteCall := some 500 } := by
  refine ⟨fun h => ?_, ?_, ?_⟩
  · simp [deferredErrorHandling, h]
  · simp [deferredErrorHandling]
  · rfl

/-- Witness for C6 at a concrete input: a panic carrying a coded error. -/
theorem panicClassification_witness :
    (⟨3, "x"⟩ : GCode) ≠ CodeNil ∧
    deferredErrorHandling true none
        (some (PanicValue.errPanic ⟨⟨3, "x"⟩, "boom"⟩)) =
      { loggedError := some ⟨⟨3, "x"⟩, "boom"⟩, statusWriteCall := some 500 } :=
  ⟨by decide, (panicClassification ⟨3, "x"⟩ "boom" "p").1 (by decide)⟩

/-- An environment serving a static file match whose serving code writes
no bytes: file serving enabled, a non-directory match, no dynamic
handlers, no hooks, no status handlers. -/
def silentStaticEnv : Env :=
  { baseEnv with
      fileServerEnabled := true
      searchStaticFile := some { isDir := false } }

/-- Counterexample to C2 as stated: a request in which no handler writes
any output (empty buffer, `served` false), no error is recorded and no
explicit status was set, yet the final status is 200, not 404 - because a
static-file match is present and `StaticFile != nil` alone makes the
status-checking block default to 200. -/
theorem default404_cex :
    (stateAfterServe silentStaticEnv (newRequest "c2")).response.status = 0 ∧
    (stateAfterServe silentStaticEnv (newRequest "c2")).response.buffer = "" ∧
    (stateAfterServe silentStaticEnv (newRequest "c2")).middleware.served = false ∧
    (stateAfterServe silentStaticEnv (newRequest "c2")).error = none ∧
    (stateAfterCheck silentStaticEnv (newRequest "c2")).response.status = 200 ∧
    Event.responseFlush 200 ∈ (cServeHTTP silentStaticEnv (newRequest "c2")).2 ∧
    ¬ Event.responseFlush 404 ∈ (cServeHTTP silentStaticEnv (newRequest "c2")).2 := by
  refine ⟨rfl, rfl, rfl, rfl, rfl, ?_, ?_⟩ <;> decide

/-- C2 as amended.  Whenever the serving phase ends with no explicit
status, an empty buffer, the chain not `served`, no recorded error, and
additionally no static-file match, the status-checking block writes 404;
and when no fallback handlers are registered for 404, 404 is also the
status handed to `Response.Flush`. -/
theorem default404WhenNothingWritten (env : Env) (st : ReqState)
    (h0 : (stateAfterServe env st).response.status = 0)
    (hb : (stateAfterServe env st).response.buffer = "")
    (hsv : (stateAfterServe env st).middleware.served = false)
    (he : (stateAfterServe env st).error = none)
    (hsf : (stateAfterServe env st).staticFile = none) :
    (stateAfterCheck env st).response.status = 404 ∧
    (env.statusHandlers 404 = [] →
      Event.responseFlush 404 ∈ (cServeHTTP env st).2) := by
  have hcond : ((stateAfterServe env st).staticFile.isSome ||
      (stateAfterServe env st).middleware.served ||
      decide ((stateAfterServe env st).response.buffer.length > 0)) = false := by
    simp [hsf, hsv, hb]
  have hstep : stateAfterCheck env st = writeHeader (stateAfterServe env st) 404 := by
    unfold stateAfterCheck statusCheck
    rw [if_pos h0, if_neg (by simp [hcond]), he]
  have h404 : (stateAfterCheck env st).response.status = 404 := by
    rw [hstep]; rfl
  refine ⟨h404, fun hempty => ?_⟩
  have hstage : statusHandlerStage env (stateAfterCheck env st) =
      (stateAfterCheck env st, []) := by
    unfold statusHandlerStage
    rw [if_pos (by rw [h404]; decide)]
    rw [h404, hempty]
    rfl
  have hflush : (stateAtFlush env st).response.status = 404 := by
    unfold stateAtFlush
    rw [sessionCookieStep_response]
    unfold stateBeforeCookie
    rw [hstage]
    exact h404
  have := responseFlush_mem env st
  rwa [hflush] at this

/-- Witness for the amended C2 at a concrete input: one registered dynamic
handler whose chain leaves the request untouched. -/
theorem default404WhenNothingWritten_witness :
    (stateAfterServe idleHandlerEnv (newRequest "w2")).response.status = 0 ∧
    ((stateAfterCheck idleHandlerEnv (newRequest "w2")).response.status = 404 ∧
      (idleHandlerEnv.statusHandlers 404 = [] →
        Event.responseFlush 404 ∈ (cServeHTTP idleHandlerEnv (newRequest "w2")).2)) :=
  ⟨by decide, default404WhenNothingWritten idleHandlerEnv (newRequest "w2")
    (by decide) (by decide) (by decide) (by decide) (by decide)⟩

lemma mem_handleHTTPRequest_of_core (env : Env) (st : ReqState) (e : Event)
    (h : e ∈ (coreServe env (env.hook HookName.beforeServe
      (adjustFileRequest (resolveHandlers env (resolveStatic env st))))).2) :
    e ∈ (handleHTTPRequest env st).2 := by
  simp only [handleHTTPRequest, List.mem_append]
  exact Or.inl (Or.inl (Or.inr h))

/-- C4.  For a request with file serving enabled and a static-file match,
and whose BeforeServe hooks leave the request unchanged: the request is
served as a static file, unless the match is a directory and a dynamic
serve handler exists for the route, in which case (the handler chain
being non-empty) the dynamic handler chain is served instead. -/
theorem staticFilePriority (env : Env) (st : ReqState) (sf : StaticFile)
    (hfse : env.fileServerEnabled = true)
    (hsf : env.searchStaticFile = some sf)
    (hhook : ∀ s, env.hook HookName.beforeServe s = s)
    (hex : st.exited = false) :
    ((sf.isDir && env.hasServeHandler) = false →
      Event.serveStatic ∈ (handleHTTPRequest env st).2) ∧
    ((sf.isDir && env.hasServeHandler) = true → 0 < env.handlersCount →
      Event.serveDynamic ∈ (handleHTTPRequest env st).2) := by
  have hres : resolveStatic env st =
      { st with staticFile := some sf, isFileRequest := true } := by
    unfold resolveStatic
    rw [if_pos hfse, hsf]
  constructor
  · intro hcase
    apply mem_handleHTTPRequest_of_core
    rw [hres, hhook]
    unfold adjustFileRequest resolveHandlers staticIsDir coreServe
    simp [hcase, hex]
  · intro hcase hn
    apply mem_handleHTTPRequest_of_core
    rw [hres, hhook]
    unfold adjustFileRequest resolveHandlers staticIsDir coreServe
    simp [hcase, hex, hn]

/-- Witness for C4 at a concrete input: a non-directory static match with
no BeforeServe hooks. -/
theorem staticFilePriority_witness :
    silentStaticEnv.fileServerEnabled = true ∧
    Event.serveStatic ∈ (handleHTTPRequest silentStaticEnv (newRequest "w4")).2 :=
  ⟨rfl, (staticFilePriority silentStaticEnv (newRequest "w4") { isDir := false }
    rfl rfl (fun _ => rfl) rfl).1 rfl⟩

lemma cookie_any_callHookIfNotExited (env : Env) (h : HookName) (st : ReqState) :
    ((callHookIfNotExited env h st).2.any isCookieWrite) = false := by
  unfold callHookIfNotExited
  split
  · rfl
  · rfl

lemma cookie_any_coreServe (env : Env) (st : ReqState) :
    ((coreServe env st).2.any isCookieWrite) = false := by
  unfold coreServe
  split
  · rfl
  · split
    · rfl
    · split
      · rfl
      · split
        · rfl
        · split <;> rfl

lemma cookie_any_runStatusHandlers (fs : List StatusHandler) (i : Nat) (st : ReqState) :
    ((runStatusHandlers fs i st).2.any isCookieWrite) = false := by
  induction fs generalizing i st with
  | nil => rfl
  | cons f rest ih =>
    unfold runStatusHandlers
    dsimp only
    split
    · rfl
    · simp only [List.any_cons]
      exact ih (i + 1) _

lemma cookie_any_statusHandlerStage (env : Env) (st : ReqState) :
    ((statusHandlerStage env st).2.any isCookieWrite) = false := by
  unfold statusHandlerStage
  split
  · exact cookie_any_runStatusHandlers _ _ _
  · rfl

lemma cookie_any_handleHTTPRequest (env : Env) (st : ReqState) :
    ((handleHTTPRequest env st).2.any isCookieWrite) = false := by
  simp only [handleHTTPRequest, List.any_append, Bool.or_eq_false_iff]
  exact ⟨⟨⟨rfl, cookie_any_coreServe _ _⟩, cookie_any_callHookIfNotExited _ _ _⟩,
    cookie_any_callHookIfNotExited _ _ _⟩

lemma cookie_any_sessionCookieStep (b : Bool) (st : ReqState) :
    ((sessionCookieStep b st).2.any isCookieWrite) =
      (b && st.sessionDirty && (st.sessionId != st.inboundSessionId)) := by
  unfold sessionCookieStep
  split
  · next hc => rw [hc]; rfl
  · next hc =>
    rw [Bool.not_eq_true] at hc
    rw [hc]
    rfl

/-- C5.  For every request, the dispatcher writes the session id to the
outbound cookie if and only if `SessionCookieOutput` is enabled, the
session is dirty, and the session's current id differs from the inbound
request session id - the three conditions evaluated on the request state
reaching the cookie step (all four combinations of the last two
conditions under each configuration follow from this equality of
Booleans). -/
theorem sessionCookieIff (env : Env) (st : ReqState) :
    ((cServeHTTP env st).2.any isCookieWrite) =
      (env.sessionCookieOutput && (stateBeforeCookie env st).sessionDirty &&
        ((stateBeforeCookie env st).sessionId !=
          (stateBeforeCookie env st).inboundSessionId)) := by
  simp only [cServeHTTP, List.any_append, cookie_any_handleHTTPRequest,
    cookie_any_statusHandlerStage, cookie_any_callHookIfNotExited,
    Bool.false_or, Bool.or_false]
  rw [cookie_any_sessionCookieStep]
  simp only [List.any_cons, List.any_nil, isCookieWrite, Bool.or_false]
  rfl

/-- Whether an event is a status-fallback-handler invocation. -/
def isStatusCall (e : Event) : Bool :=
  match e with
  | Event.statusHandlerCall _ => true
  | _ => false

/-- The registration indices of the status-fallback handlers invoked, in
trace order. -/
def statusCalls (tr : List Event) : List Nat :=
  tr.filterMap fun e =>
    match e with
    | Event.statusHandlerCall i => some i
    | _ => none

lemma not_mem_of_any_eq_false {p : Event → Bool} {tr : List Event}
    (h : tr.any p = false) (e : Event) (hp : p e = true) : e ∉ tr := by
  intro hm
  have htrue : tr.any p = true := List.any_eq_true.mpr ⟨e, hm, hp⟩
  rw [h] at htrue
  exact Bool.false_ne_true htrue

lemma status_any_callHookIfNotExited (env : Env) (h : HookName) (st : ReqState) :
    ((callHookIfNotExited env h st).2.any isStatusCall) = false := by
  unfold callHookIfNotExited
  split
  · rfl
  · rfl

lemma status_any_coreServe (env : Env) (st : ReqState) :
    ((coreServe env st).2.any isStatusCall) = false := by
  unfold coreServe
  split
  · rfl
  · split
    · rfl
    · split
      · rfl
      · split
        · rfl
        · split <;> rfl

lemma status_any_handleHTTPRequest (env : Env) (st : ReqState) :
    ((handleHTTPRequest env st).2.any isStatusCall) = false := by
  simp only [handleHTTPRequest, List.any_append, Bool.or_eq_false_iff]
  exact ⟨⟨⟨rfl, status_any_coreServe _ _⟩, status_any_callHookIfNotExited _ _ _⟩,
    status_any_callHookIfNotExited _ _ _⟩

lemma status_any_sessionCookieStep (b : Bool) (st : ReqState) :
    ((sessionCookieStep b st).2.any isStatusCall) = false := by
  unfold sessionCookieStep
  split <;> rfl

lemma mem_statusCall_cServeHTTP (env : Env) (st : ReqState) (j : Nat) :
    Event.statusHandlerCall j ∈ (cServeHTTP env st).2 ↔
      Event.statusHandlerCall j ∈
        (statusHandlerStage env (stateAfterCheck env st)).2 := by
  simp only [cServeHTTP, List.mem_append]
  constructor
  · rintro ((((h | h) | h) | h) | h)
    · exact absurd h (not_mem_of_any_eq_false (status_any_handleHTTPRequest env st) _ rfl)
    · exact h
    · exact absurd h
        (not_mem_of_any_eq_false (status_any_sessionCookieStep env.sessionCookieOutput _) _ rfl)
    · simp at h
    · exact absurd h
        (not_mem_of_any_eq_false (status_any_callHookIfNotExited env HookName.afterOutput _) _ rfl)
  · intro h
    exact Or.inl (Or.inl (Or.inl (Or.inr h)))

lemma applyTake_one_cons (f : StatusHandler) (rest : List StatusHandler) (st : ReqState) :
    applyTake (f :: rest) 1 st = (f st).1 := rfl

lemma applyTake_succ_cons (f : StatusHandler) (rest : List StatusHandler)
    (n : Nat) (st : ReqState) :
    applyTake (f :: rest) (n + 1) st = applyTake rest n ((f st).1) := rfl

lemma mem_runStatusHandlers (fs : List StatusHandler) (i j : Nat) (st : ReqState) :
    Event.statusHandlerCall j ∈ (runStatusHandlers fs i st).2 ↔
      ∃ k, j = i + k ∧ k < fs.length ∧
        ∀ m, m < k → (applyTake fs (m + 1) st).exited = false := by
  induction fs generalizing i st with
  | nil => simp [runStatusHandlers]
  | cons f rest ih =>
    unfold runStatusHandlers
    dsimp only
    split
    · next hex =>
      simp only [List.mem_singleton, Event.statusHandlerCall.injEq]
      constructor
      · rintro rfl
        exact ⟨0, by omega, by simp, fun m hm => absurd hm (Nat.not_lt_zero m)⟩
      · rintro ⟨k, hj, _, hall⟩
        rcases Nat.eq_zero_or_pos k with h0 | hpos
        · omega
        · have := hall 0 hpos
          rw [applyTake_one_cons] at this
          rw [hex] at this
          exact absurd this (by simp)
    · next hex =>
      rw [Bool.not_eq_true] at hex
      simp only [List.mem_cons, Event.statusHandlerCall.injEq, ih]
      constructor
      · rintro (rfl | ⟨k, hj, hk, hall⟩)
        · exact ⟨0, by omega, by simp, fun m hm => absurd hm (Nat.not_lt_zero m)⟩
        · refine ⟨k + 1, by omega, by simp; omega, ?_⟩
          intro m hm
          cases m with
          | zero => rw [applyTake_one_cons]; exact hex
          | succ m2 =>
            rw [applyTake_succ_cons]
            exact hall m2 (by omega)
      · rintro ⟨k, hj, hk, hall⟩
        cases k with
        | zero => exact Or.inl (by omega)
        | succ k2 =>
          refine Or.inr ⟨k2, by omega, by simp at hk; omega, ?_⟩
          intro m hm
          have := hall (m + 1) (by omega)
          rwa [applyTake_succ_cons] at this

lemma statusCalls_append (t1 t2 : List Event) :
    statusCalls (t1 ++ t2) = statusCalls t1 ++ statusCalls t2 :=
  List.filterMap_append _ _ _

lemma statusCalls_eq_nil (tr : List Event) (h : tr.any isStatusCall = false) :
    statusCalls tr = [] := by
  unfold statusCalls
  rw [List.filterMap_eq_nil_iff]
  intro e he
  have hne := List.any_eq_false.mp h e he
  cases e <;> try rfl
  exact absurd rfl hne

lemma status_any_flushTrace (n : Nat) :
    ([Event.cookieFlush, Event.responseFlush n].any isStatusCall) = false := rfl

lemma statusCalls_runStatusHandlers (fs : List StatusHandler) (i : Nat) (st : ReqState) :
    ∃ k, statusCalls (runStatusHandlers fs i st).2 = List.range' i k := by
  induction fs generalizing i st with
  | nil => exact ⟨0, rfl⟩
  | cons f rest ih =>
    unfold runStatusHandlers
    dsimp only
    split
    · exact ⟨1, rfl⟩
    · obtain ⟨k, hk⟩ := ih (i + 1) ((f st).1)
      refine ⟨k + 1, ?_⟩
      rw [List.range'_succ]
      unfold statusCalls at hk ⊢
      rw [List.filterMap_cons]
      dsimp only
      rw [hk]

lemma statusCalls_cServeHTTP (env : Env) (st : ReqState) :
    statusCalls (cServeHTTP env st).2 =
      statusCalls (statusHandlerStage env (stateAfterCheck env st)).2 := by
  simp only [cServeHTTP]
  rw [statusCalls_append, statusCalls_append, statusCalls_append, statusCalls_append]
  rw [statusCalls_eq_nil _ (status_any_handleHTTPRequest env st),
    statusCalls_eq_nil _ (status_any_sessionCookieStep env.sessionCookieOutput _),
    statusCalls_eq_nil _ (status_any_flushTrace _),
    statusCalls_eq_nil _ (status_any_callHookIfNotExited env HookName.afterOutput _)]
  simp only [List.nil_append, List.append_nil]
  rfl

/-- C7 as amended.  Status-fallback handlers are invoked only when the
status after the checking block differs from 200; the invoked handlers
form an initial segment of the registration order (the indices recorded
in the trace are exactly `0, 1, 2, ...`); and the `j`-th registered
handler is invoked exactly when the status differs from 200, `j` is in
range, and after each earlier handler the `exited` flag was still
`false` - so the loop stops after the current handler as soon as the
flag is observed set, whether that handler set it or it was already set
earlier in the request.  Handlers run inside the protective wrapper
(`applyTake` keeps the state and discards the panic flag), so a
panicking handler does not prevent its siblings from running. -/
theorem statusHandlersCharacterized (env : Env) (st : ReqState) :
    (∃ k, statusCalls (cServeHTTP env st).2 = List.range k) ∧
    (∀ j, Event.statusHandlerCall j ∈ (cServeHTTP env st).2 ↔
      ((stateAfterCheck env st).response.status ≠ 200 ∧
        j < (env.statusHandlers (stateAfterCheck env st).response.status).length ∧
        ∀ m, m < j →
          (applyTake (env.statusHandlers (stateAfterCheck env st).response.status)
            (m + 1) (stateAfterCheck env st)).exited = false)) := by
  constructor
  · rw [statusCalls_cServeHTTP]
    unfold statusHandlerStage
    split
    · obtain ⟨k, hk⟩ := statusCalls_runStatusHandlers
        (env.statusHandlers (stateAfterCheck env st).response.status) 0
        (stateAfterCheck env st)
      exact ⟨k, by rw [hk, List.range_eq_range']⟩
    · exact ⟨0, rfl⟩
  · intro j
    rw [mem_statusCall_cServeHTTP]
    unfold statusHandlerStage
    split
    · next hne =>
      rw [mem_runStatusHandlers]
      constructor
      · rintro ⟨k, hj, hk, hall⟩
        have hjk : j = k := by omega
        refine ⟨hne, ?_, ?_⟩
        · rw [hjk]; exact hk
        · intro m hm
          exact hall m (by omega)
      · rintro ⟨_, h2, h3⟩
        exact ⟨j, by omega, h2, h3⟩
    · next hne =>
      rw [not_not] at hne
      simp [hne]

/-- An environment whose BeforeServe hook exits the request before any
serving happens, and with two 404 fallback handlers that leave the
request untouched (in particular, neither of them sets `exited`). -/
def preExitedEnv : Env :=
  { baseEnv with
      hook := fun h s =>
        if h = HookName.beforeServe then { s with exited := true } else s
      statusHandlers := fun n =>
        if n = 404 then [fun s => (s, false), fun s => (s, false)] else [] }

/-- Counterexample to C7 as stated: the final status is 404, two fallback
handlers are registered for 404, neither of them sets the `exited` flag
(the first one returns the state unchanged, and the flag was already
`true` before the loop because a BeforeServe hook exited the request),
yet the loop stops after the first handler: handler 0 is invoked and
handler 1 is not.  The claim's "stops early as soon as one of them sets
the exited flag" would have both handlers run. -/
theorem statusHandlersStop_cex :
    (stateAfterCheck preExitedEnv (newRequest "c7")).response.status = 404 ∧
    (stateAfterCheck preExitedEnv (newRequest "c7")).exited = true ∧
    (preExitedEnv.statusHandlers 404).length = 2 ∧
    applyTake (preExitedEnv.statusHandlers 404) 1
        (stateAfterCheck preExitedEnv (newRequest "c7")) =
      stateAfterCheck preExitedEnv (newRequest "c7") ∧
    Event.statusHandlerCall 0 ∈ (cServeHTTP preExitedEnv (newRequest "c7")).2 ∧
    Event.statusHandlerCall 1 ∉ (cServeHTTP preExitedEnv (newRequest "c7")).2 := by
  refine ⟨rfl, rfl, rfl, rfl, ?_, ?_⟩ <;> decide

/-- Witness for the amended C7 at a concrete input: handler 0 is invoked
when the status is 404 and two handlers are registered. -/
theorem statusHandlersCharacterized_witness :
    Event.statusHandlerCall 0 ∈ (cServeHTTP preExitedEnv (newRequest "w7")).2 :=
  ((statusHandlersCharacterized preExitedEnv (newRequest "w7")).2 0).mpr
    ⟨by decide, by decide, fun m hm => absurd hm (Nat.not_lt_zero m)⟩

/-- An environment with a single dynamic handler whose only effect is to
record an error on the request. -/
def erroringEnv : Env :=
  { baseEnv with
      handlersCount := 1
      middlewareNext := fun s => { s with error := some ⟨CodeNil, "boom"⟩ } }

/-- Witness for C9 at a concrete input: a handler records an error and
writes nothing. -/
theorem errorText500_witness :
    (stateAfterCheck erroringEnv (newRequest "w9")).response.status = 500 ∧
    (stateAfterCheck erroringEnv (newRequest "w9")).response.buffer = "boom" :=
  errorText500 erroringEnv (newRequest "w9") ⟨CodeNil, "boom"⟩
    (by decide) (by decide) (by decide) (by decide) (by decide)

end GfDispatch
